import Mathlib

/-! Shallow embedding of the pumasi server slice: the task lifecycle routes,
the transaction handshake routes, the conversation get-or-create operation and
the rating aggregate, translated from src/server/routes.ts, the storage layer
(DatabaseStorage) and src/shared/schema.ts.  Database tables are lists of rows,
timestamps are naturals, decimal columns are rationals, and each Express route
handler becomes a pure function from the relevant table(s) and request data to
a response together with the updated table(s). -/

namespace Pumasi

/-- JS truthiness of an optional string field taken from a request body:
`undefined` / `null` (modelled as `none`) and the empty string are falsy. -/
def jsTruthy : Option String → Bool
  | none => false
  | some s => !(s == "")

/-- A row of the `tasks` table (src/shared/schema.ts, `tasks`). -/
structure Task where
  id : String
  title : String
  description : String
  category : String
  reward : Rat
  timeEstimate : Option String
  location : Option String
  status : String
  authorId : String
  helperId : Option String
  communityId : String
  createdAt : Nat
  updatedAt : Nat
deriving Repr, DecidableEq

/-- A `Partial<Task>` request body / update set: absent fields are `none`.
Mirrors what PATCH /api/tasks/:id forwards verbatim to `updateTask`. -/
structure TaskUpdates where
  title : Option String := none
  description : Option String := none
  category : Option String := none
  reward : Option Rat := none
  timeEstimate : Option (Option String) := none
  location : Option (Option String) := none
  status : Option String := none
  helperId : Option String := none
deriving Repr, DecidableEq

/-- `DatabaseStorage.updateTask`: apply the provided fields and stamp
`updatedAt` with the current time. -/
def applyTaskUpdates (t : Task) (u : TaskUpdates) (now : Nat) : Task :=
  { t with
    title := u.title.getD t.title
    description := u.description.getD t.description
    category := u.category.getD t.category
    reward := u.reward.getD t.reward
    timeEstimate := u.timeEstimate.getD t.timeEstimate
    location := u.location.getD t.location
    status := u.status.getD t.status
    helperId :=
      match u.helperId with
      | some h => some h
      | none => t.helperId
    updatedAt := now }

/-- `DatabaseStorage.getTask` restricted to the row lookup: first row whose
id matches. -/
def getTaskRow (tasksTable : List Task) (id : String) : Option Task :=
  tasksTable.find? (fun t => t.id == id)

/-- The table after `DatabaseStorage.updateTask`: every row whose id matches
is updated. -/
def updateTaskRows (tasksTable : List Task) (id : String) (u : TaskUpdates)
    (now : Nat) : List Task :=
  tasksTable.map (fun t => if t.id == id then applyTaskUpdates t u now else t)

/-- PATCH /api/tasks/:id (routes.ts lines 151-174): 404 when the task is
missing, 400 when the body sets `helperId` (truthily) to the author's id,
403 when the caller is neither the author nor the helper being set, otherwise
the body is applied verbatim via `updateTask`. -/
def patchTaskRoute (tasksTable : List Task) (pathId : String)
    (body : TaskUpdates) (userId : String) (now : Nat) :
    Except Nat Task × List Task :=
  match getTaskRow tasksTable pathId with
  | none => (.error 404, tasksTable)
  | some task =>
    if jsTruthy body.helperId && (body.helperId == some task.authorId) then
      (.error 400, tasksTable)
    else if (task.authorId != userId) && (body.helperId != some userId) then
      (.error 403, tasksTable)
    else
      (.ok (applyTaskUpdates task body now),
        updateTaskRows tasksTable pathId body now)

/-- The update set the cancel route passes to `updateTask`. -/
def cancelledUpdate : TaskUpdates := { status := some "cancelled" }

/-- DELETE /api/tasks/:id (routes.ts lines 177-200): 404 when missing, 403
when the caller is not the author, 400 unless the status is open or accepted,
otherwise the status is set to cancelled. -/
def deleteTaskRoute (tasksTable : List Task) (pathId : String)
    (userId : String) (now : Nat) : Except Nat Task × List Task :=
  match getTaskRow tasksTable pathId with
  | none => (.error 404, tasksTable)
  | some task =>
    if task.authorId != userId then
      (.error 403, tasksTable)
    else if task.status != "open" && task.status != "accepted" then
      (.error 400, tasksTable)
    else
      (.ok (applyTaskUpdates task cancelledUpdate now),
        updateTaskRows tasksTable pathId cancelledUpdate now)

/-- A row of the `transactions` table (src/shared/schema.ts, `transactions`). -/
structure Transaction where
  id : String
  taskId : String
  payerId : String
  payeeId : String
  amount : Rat
  status : String
  payerStartRequested : Bool
  payeeStartRequested : Bool
  payerConfirmed : Bool
  payeeConfirmed : Bool
  createdAt : Nat
  completedAt : Option Nat
deriving Repr, DecidableEq

/-- The `updates` object built by the start-request and confirm handlers:
only the fields that were assigned are applied by `updateTransaction`. -/
structure TxUpdates where
  payerStartRequested : Option Bool := none
  payeeStartRequested : Option Bool := none
  payerConfirmed : Option Bool := none
  payeeConfirmed : Option Bool := none
  status : Option String := none
  completedAt : Option Nat := none
deriving Repr, DecidableEq

/-- JS truthiness of an `updates` field that is either `true` or absent. -/
def optTrue (o : Option Bool) : Bool := o.getD false

/-- `DatabaseStorage.updateTransaction`: apply only the provided fields. -/
def applyTxUpdates (t : Transaction) (u : TxUpdates) : Transaction :=
  { t with
    payerStartRequested := u.payerStartRequested.getD t.payerStartRequested
    payeeStartRequested := u.payeeStartRequested.getD t.payeeStartRequested
    payerConfirmed := u.payerConfirmed.getD t.payerConfirmed
    payeeConfirmed := u.payeeConfirmed.getD t.payeeConfirmed
    status := u.status.getD t.status
    completedAt :=
      match u.completedAt with
      | some n => some n
      | none => t.completedAt }

/-- The update set and user role built by the start-request handler
(routes.ts lines 346-365): the caller's flag is set when the caller is the
payer or the payee (`none` models the 403 branch), and the status is
recomputed from the new flag together with the stored opposite flag. -/
def startRequestUpdates (t : Transaction) (userId : String) :
    Option (TxUpdates × String) :=
  (if t.payerId == userId then
    some (({ payerStartRequested := some true } : TxUpdates), "payer")
  else if t.payeeId == userId then
    some (({ payeeStartRequested := some true } : TxUpdates), "payee")
  else none).map (fun p =>
    if (optTrue p.1.payerStartRequested && t.payeeStartRequested) ||
       (optTrue p.1.payeeStartRequested && t.payerStartRequested) then
      ({ p.1 with status := some "in_progress" }, p.2)
    else
      ({ p.1 with status := some "start_requested" }, p.2))

/-- The update set built by the confirm handler (routes.ts lines 397-411):
the caller's confirmed flag is set, and when the other party's stored flag is
already true the status becomes completed and `completedAt` is stamped. -/
def confirmUpdates (t : Transaction) (userId : String) (now : Nat) :
    Option TxUpdates :=
  (if t.payerId == userId then
    some ({ payerConfirmed := some true } : TxUpdates)
  else if t.payeeId == userId then
    some ({ payeeConfirmed := some true } : TxUpdates)
  else none).map (fun u =>
    if (optTrue u.payerConfirmed && t.payeeConfirmed) ||
       (optTrue u.payeeConfirmed && t.payerConfirmed) then
      { u with status := some "completed", completedAt := some now }
    else u)

/-- The `transaction_start_request` WebSocket payload (routes.ts 373-379). -/
structure StartRequestEvent where
  taskId : String
  requestedBy : String
  otherUserId : String
  bothRequested : Bool
deriving Repr, DecidableEq

/-- `DatabaseStorage.getTaskTransaction`: first transaction row whose
`taskId` matches. -/
def getTaskTransaction (txs : List Transaction) (taskId : String) :
    Option Transaction :=
  txs.find? (fun t => t.taskId == taskId)

/-- The transactions table after `updateTransaction` on a given row id. -/
def updateTxRows (txs : List Transaction) (id : String) (u : TxUpdates) :
    List Transaction :=
  txs.map (fun t => if t.id == id then applyTxUpdates t u else t)

/-- Outcome of the start-request route: HTTP response, resulting table and
the broadcast events. -/
structure StartRequestResult where
  resp : Except Nat Transaction
  transactionsTable : List Transaction
  events : List StartRequestEvent
deriving Repr

/-- PATCH /api/transactions/:id/start-request (routes.ts lines 339-388).
The transaction is looked up by the request body's `taskId`; the `:id` path
segment (`pathId`) is received but never consulted. -/
def startRequestRoute (txs : List Transaction) (pathId : String)
    (bodyTaskId : String) (userId : String) : StartRequestResult :=
  match getTaskTransaction txs bodyTaskId with
  | none => ⟨.error 404, txs, []⟩
  | some transaction =>
    match startRequestUpdates transaction userId with
    | none => ⟨.error 403, txs, []⟩
    | some p =>
      let otherUserId :=
        if p.2 == "payer" then transaction.payeeId else transaction.payerId
      ⟨.ok (applyTxUpdates transaction p.1),
        updateTxRows txs transaction.id p.1,
        [⟨bodyTaskId, userId, otherUserId, p.1.status == some "in_progress"⟩]⟩

/-- Outcome of the confirm route: HTTP response and resulting table. -/
structure ConfirmResult where
  resp : Except Nat Transaction
  transactionsTable : List Transaction
deriving Repr

/-- PATCH /api/transactions/:id/confirm (routes.ts lines 390-419).  Like the
start-request route, the lookup uses the body's `taskId`, never `pathId`. -/
def confirmRoute (txs : List Transaction) (pathId : String)
    (bodyTaskId : String) (userId : String) (now : Nat) : ConfirmResult :=
  match getTaskTransaction txs bodyTaskId with
  | none => ⟨.error 404, txs⟩
  | some transaction =>
    match confirmUpdates transaction userId now with
    | none => ⟨.error 403, txs⟩
    | some u =>
      ⟨.ok (applyTxUpdates transaction u), updateTxRows txs transaction.id u⟩

/-- POST /api/tasks/:id/transaction (routes.ts lines 317-336) combined with
`DatabaseStorage.createTransaction`: no ownership check is performed on the
caller; when the task has no helper the non-null `payeeId` insert fails in the
store and surfaces as a 500; otherwise the new row copies the author, helper
and reward and starts pending with all four flags false (schema defaults). -/
def createTransactionRoute (tasksTable : List Task) (txs : List Transaction)
    (pathId : String) (userId : String) (freshId : String) (now : Nat) :
    Except Nat Transaction × List Transaction :=
  match getTaskRow tasksTable pathId with
  | none => (.error 404, txs)
  | some task =>
    match task.helperId with
    | none => (.error 500, txs)
    | some helperId =>
      let tx : Transaction :=
        ⟨freshId, pathId, task.authorId, helperId, task.reward, "pending",
          false, false, false, false, now, none⟩
      (.ok tx, txs ++ [tx])

/-- Single-transaction effect of a start-request by `userId` (an unauthorized
caller leaves the row unchanged, mirroring the 403 early return). -/
def requestStartTx (t : Transaction) (userId : String) : Transaction :=
  match startRequestUpdates t userId with
  | some p => applyTxUpdates t p.1
  | none => t

/-- Single-transaction effect of a confirm by `userId`. -/
def confirmTx (t : Transaction) (userId : String) (now : Nat) : Transaction :=
  match confirmUpdates t userId now with
  | some u => applyTxUpdates t u
  | none => t

/-- The operations the routes expose on one transaction row. -/
inductive TxOp where
  | start (userId : String)
  | confirmAct (userId : String) (now : Nat)
deriving Repr, DecidableEq

/-- Apply one route operation to a transaction row. -/
def applyTxOp (t : Transaction) : TxOp → Transaction
  | .start u => requestStartTx t u
  | .confirmAct u now => confirmTx t u now

/-- Run a sequence of route operations on a transaction row. -/
def runTxOps (t : Transaction) (ops : List TxOp) : Transaction :=
  ops.foldl applyTxOp t

/-- A freshly created transaction row (`createTransaction` plus the schema
defaults): status pending, all four flags false, no completion stamp. -/
def initTransaction (id taskId payerId payeeId : String) (amount : Rat)
    (now : Nat) : Transaction :=
  ⟨id, taskId, payerId, payeeId, amount, "pending",
    false, false, false, false, now, none⟩

/-- A row of the `conversations` table. -/
structure Conversation where
  id : Nat
  taskId : String
  authorId : String
  participantId : String
  lastMessageAt : Option Nat
  createdAt : Nat
deriving Repr, DecidableEq

/-- The conversations table together with the store's fresh-id source. -/
structure ConvStore where
  rows : List Conversation
  nextId : Nat
deriving Repr, DecidableEq

/-- The lookup inside `getOrCreateConversation`: first row matching all three
fields. -/
def findConversation (rows : List Conversation)
    (taskId authorId participantId : String) : Option Conversation :=
  rows.find? (fun c =>
    c.taskId == taskId && c.authorId == authorId &&
      c.participantId == participantId)

/-- `DatabaseStorage.getOrCreateConversation` (part_000 lines 364-392):
return the existing row if one matches, otherwise insert a new one. -/
def getOrCreateConversation (s : ConvStore)
    (taskId authorId participantId : String) (now : Nat) :
    Conversation × ConvStore :=
  match findConversation s.rows taskId authorId participantId with
  | some c => (c, s)
  | none =>
    let c : Conversation := ⟨s.nextId, taskId, authorId, participantId, none, now⟩
    (c, ⟨s.rows ++ [c], s.nextId + 1⟩)

/-- A row of the `ratings` table. -/
structure Rating where
  id : Nat
  taskId : String
  raterId : String
  ratedId : String
  rating : Int
  comment : Option String
  createdAt : Nat
deriving Repr, DecidableEq

/-- The slice of a `users` row the rating aggregator touches. -/
structure UserRow where
  id : String
  rating : Rat
  completedTasks : Int
  helpGiven : Int
  helpReceived : Int
deriving Repr, DecidableEq

/-- JS `Number.prototype.toFixed(2)` on a non-negative value: round to the
nearest hundredth, ties away from zero. -/
def toFixed2 (q : Rat) : Rat := ((⌊q * 100 + 1 / 2⌋ : Int) : Rat) / 100

/-- The exact integer sum of the scores of a list of rating rows, following
the claim wording (`r1 + ... + rn`). -/
def sumRatings (rs : List Rating) : Int :=
  rs.foldl (fun sum r => sum + r.rating) 0

/-- The exact arithmetic mean of the scores of a list of rating rows.  This
follows the claim wording ("the arithmetic mean of all n scores"); the code
computes `jsAvg` instead, which rounds through IEEE doubles. -/
def ratAvg (rs : List Rating) : Rat :=
  (sumRatings rs : Rat) / (rs.length : Rat)

/-- Fuel-based base-2 logarithm on naturals (the fuel argument makes the
recursion structural): for n >= 1, the unique l with 2^l <= n < 2^(l+1). -/
def natLog2Aux : Nat → Nat → Nat
  | 0, _ => 0
  | fuel + 1, n => if n ≤ 1 then 0 else natLog2Aux fuel (n / 2) + 1

/-- Base-2 logarithm of a natural number. -/
def natLog2 (n : Nat) : Nat := natLog2Aux n n

/-- Round a rational to the nearest integer, ties to even. -/
def roundHalfEven (q : Rat) : Int :=
  if q - ⌊q⌋ < 1 / 2 then ⌊q⌋
  else if q - ⌊q⌋ > 1 / 2 then ⌊q⌋ + 1
  else if ⌊q⌋ % 2 = 0 then ⌊q⌋ else ⌊q⌋ + 1

/-- The binade exponent of a positive rational: the unique e with
2^e <= q < 2^(e+1). -/
def binadeExp (q : Rat) : Int :=
  let e0 : Int := (natLog2 q.num.toNat : Int) - (natLog2 q.den : Int)
  if (2 : Rat) ^ e0 ≤ q then e0 else e0 - 1

/-- IEEE-754 binary64 rounding (round to nearest, ties to even) of a
positive rational in the normal range: the significand is scaled to
[2^52, 2^53) and rounded. -/
def fl64Pos (q : Rat) : Rat :=
  (roundHalfEven (q * (2 : Rat) ^ ((52 : Int) - binadeExp q)) : Rat) *
    (2 : Rat) ^ (binadeExp q - 52)

/-- IEEE-754 binary64 rounding of a rational.  Every number the rating
aggregator manipulates (integer scores, their partial sums below 2^53, and
their means) lies in the normal double range, where this is the exact
JS semantics of the arithmetic. -/
def fl64 (q : Rat) : Rat :=
  if q = 0 then 0 else if q < 0 then -fl64Pos (-q) else fl64Pos q

/-- The `reduce((sum, r) => sum + r.rating, 0)` sum as JS computes it: each
integer score is loaded as a double and every addition is an IEEE double
addition. -/
def jsSum (rs : List Rating) : Rat :=
  rs.foldl (fun sum r => fl64 (sum + fl64 (r.rating : Rat))) 0

/-- The `sum / length` average as JS computes it: an IEEE double division
of the reduced sum by the row count (itself loaded as a double). -/
def jsAvg (rs : List Rating) : Rat :=
  fl64 (jsSum rs / fl64 (rs.length : Rat))


/-- `DatabaseStorage.createRating` (part_000 lines 287-304): insert the row,
re-read every rating of the rated user, and store the 2-decimal rounded mean
on that user's row. -/
def createRating (ratingsTable : List Rating) (usersTable : List UserRow)
    (r : Rating) : List Rating × List UserRow :=
  let ratingsTable' := ratingsTable ++ [r]
  let userRatings := ratingsTable'.filter (fun x => x.ratedId == r.ratedId)
  let avgRating := jsAvg userRatings
  (ratingsTable',
    usersTable.map (fun u =>
      if u.id == r.ratedId then { u with rating := toFixed2 avgRating } else u))

/-- Submit a sequence of ratings through `createRating`. -/
def runRatings (ratingsTable : List Rating) (usersTable : List UserRow)
    (rs : List Rating) : List Rating × List UserRow :=
  rs.foldl (fun st r => createRating st.1 st.2 r) (ratingsTable, usersTable)

/-- The stored `rating` column of a user, when the row exists. -/
def storedRating (usersTable : List UserRow) (uid : String) : Option Rat :=
  (usersTable.find? (fun u => u.id == uid)).map (fun u => u.rating)

/-- The forward directions of the handshake status derivation: an in-progress
status needs both start flags, a completed status needs both confirm flags. -/
def txInv (t : Transaction) : Prop :=
  (t.status = "in_progress" →
    t.payerStartRequested = true ∧ t.payeeStartRequested = true) ∧
  (t.status = "completed" →
    t.payerConfirmed = true ∧ t.payeeConfirmed = true)

/-- C1, counterexample: after the ordinary happy path (both parties request
start, then both confirm) the row has both start flags true and was never
cancelled, yet its status is "completed", not "in_progress" — so the claimed
biconditional for "in_progress" is false on a reachable state. -/
theorem C1_counterexample :
    (runTxOps (initTransaction "tx1" "t1" "a" "h" 15 0)
        [.start "a", .start "h", .confirmAct "a" 1, .confirmAct "h" 2]).payerStartRequested
      = true ∧
    (runTxOps (initTransaction "tx1" "t1" "a" "h" 15 0)
        [.start "a", .start "h", .confirmAct "a" 1, .confirmAct "h" 2]).payeeStartRequested
      = true ∧
    (runTxOps (initTransaction "tx1" "t1" "a" "h" 15 0)
        [.start "a", .start "h", .confirmAct "a" 1, .confirmAct "h" 2]).status
      ≠ "cancelled" ∧
    (runTxOps (initTransaction "tx1" "t1" "a" "h" 15 0)
        [.start "a", .start "h", .confirmAct "a" 1, .confirmAct "h" 2]).status
      ≠ "in_progress" ∧
    (runTxOps (initTransaction "tx1" "t1" "a" "h" 15 0)
        [.start "a", .start "h", .confirmAct "a" 1, .confirmAct "h" 2]).status
      = "completed" := by
  refine ⟨rfl, rfl, by decide, by decide, rfl⟩

/-- C3, counterexample: PATCH /api/tasks/:id performs no status-transition
check, so the author of a task whose status is already "completed" can move it
back to "open" — the exposed operations are not forward-only. -/
theorem C3_counterexample :
    patchTaskRoute
      [⟨"t1", "ttl", "d", "c", 15, none, none, "completed", "a", some "h", "c1", 0, 0⟩]
      "t1" { status := some "open" } "a" 5 =
    (Except.ok
      ⟨"t1", "ttl", "d", "c", 15, none, none, "open", "a", some "h", "c1", 0, 5⟩,
      [⟨"t1", "ttl", "d", "c", 15, none, none, "open", "a", some "h", "c1", 0, 5⟩]) := by
  rfl

/-- C4, counterexample: a task that is already accepted with helper "h1" can
be re-accepted by "h2": the PATCH succeeds and silently overwrites `helperId`,
instead of failing with Conflict. -/
theorem C4_counterexample :
    patchTaskRoute
      [⟨"t1", "ttl", "d", "c", 15, none, none, "accepted", "a", some "h1", "c1", 0, 0⟩]
      "t1" { status := some "accepted", helperId := some "h2" } "h2" 7 =
    (Except.ok
      ⟨"t1", "ttl", "d", "c", 15, none, none, "accepted", "a", some "h2", "c1", 0, 7⟩,
      [⟨"t1", "ttl", "d", "c", 15, none, none, "accepted", "a", some "h2", "c1", 0, 7⟩]) := by
  rfl

/-- C5, counterexample: the self-accept guard tests the body's `helperId`
for JS truthiness first, so a task whose author id is the empty string can be
"accepted" with `helperId = ""` by that same author — the attempt succeeds
and the author becomes their own helper, refuting the universally quantified
claim. -/
theorem C5_counterexample :
    patchTaskRoute
      [⟨"t1", "ttl", "d", "c", 15, none, none, "open", "", none, "c1", 0, 0⟩]
      "t1" { helperId := some "" } "" 3 =
    (Except.ok
      ⟨"t1", "ttl", "d", "c", 15, none, none, "open", "", some "", "c1", 0, 3⟩,
      [⟨"t1", "ttl", "d", "c", 15, none, none, "open", "", some "", "c1", 0, 3⟩]) := by
  rfl

/-- C7, counterexample: the transaction-create route never compares the
caller with the task's author: caller "x", who does not own task "t1"
(authored by "a"), successfully creates the transaction. -/
theorem C7_counterexample :
    ("x" : String) ≠ "a" ∧
    createTransactionRoute
      [⟨"t1", "ttl", "d", "c", 15, none, none, "accepted", "a", some "h", "c1", 0, 0⟩]
      [] "t1" "x" "tx9" 4 =
    (Except.ok
      ⟨"tx9", "t1", "a", "h", 15, "pending", false, false, false, false, 4, none⟩,
      [⟨"tx9", "t1", "a", "h", 15, "pending", false, false, false, false, 4, none⟩]) :=
  ⟨by decide, rfl⟩

/-- The first hit of a `find?` over an append when the left part has none. -/
theorem find_skip_left {α : Type} (p : α → Bool) (l1 l2 : List α)
    (h : l1.find? p = none) : (l1 ++ l2).find? p = l2.find? p := by
  rw [List.find?_append, h, Option.none_or]

/-- C8: calling `getOrCreateConversation` twice sequentially with the same
(taskId, authorId, participantId) triple yields a conversation with the same
id both times; the second call finds the row the first call created (or
found) and leaves the store untouched. -/
theorem C8_conversation_identity (s : ConvStore)
    (taskId authorId participantId : String) (now now' : Nat) :
    ((getOrCreateConversation
        (getOrCreateConversation s taskId authorId participantId now).2
        taskId authorId participantId now').1).id =
      ((getOrCreateConversation s taskId authorId participantId now).1).id ∧
    (getOrCreateConversation
        (getOrCreateConversation s taskId authorId participantId now).2
        taskId authorId participantId now').2 =
      (getOrCreateConversation s taskId authorId participantId now).2 := by
  cases h : findConversation s.rows taskId authorId participantId with
  | some c =>
    simp [getOrCreateConversation, h]
  | none =>
    have h2 : findConversation
        (s.rows ++ [⟨s.nextId, taskId, authorId, participantId, none, now⟩])
        taskId authorId participantId =
        some ⟨s.nextId, taskId, authorId, participantId, none, now⟩ := by
      unfold findConversation at h ⊢
      rw [find_skip_left _ _ _ h]
      simp
    simp [getOrCreateConversation, h, h2]

/-- C6: the cancel route succeeds exactly for the author on an open or
accepted task, producing status "cancelled"; a non-author gets 403 and a
wrong-state task gets 400, each with the table unchanged. -/
theorem C6_cancel (tasksTable : List Task) (pathId userId : String) (now : Nat)
    (t : Task) (h : getTaskRow tasksTable pathId = some t) :
    (t.authorId ≠ userId →
      deleteTaskRoute tasksTable pathId userId now = (.error 403, tasksTable)) ∧
    (t.authorId = userId → t.status ≠ "open" → t.status ≠ "accepted" →
      deleteTaskRoute tasksTable pathId userId now = (.error 400, tasksTable)) ∧
    (t.authorId = userId → (t.status = "open" ∨ t.status = "accepted") →
      deleteTaskRoute tasksTable pathId userId now =
        (.ok (applyTaskUpdates t cancelledUpdate now),
          updateTaskRows tasksTable pathId cancelledUpdate now) ∧
      (applyTaskUpdates t cancelledUpdate now).status = "cancelled") := by
  refine ⟨fun h1 => ?_, fun h1 h2 h3 => ?_, fun h1 h2 => ?_⟩
  · simp [deleteTaskRoute, h, h1]
  · simp [deleteTaskRoute, h, h1, h2, h3]
  · constructor
    · rcases h2 with h2 | h2 <;> simp [deleteTaskRoute, h, h1, h2]
    · simp [applyTaskUpdates, cancelledUpdate]

/-- C6, witness: a concrete author cancelling their open task succeeds. -/
theorem C6_cancel_witness :
    deleteTaskRoute
      [⟨"t1", "ttl", "d", "c", 15, none, none, "open", "a", none, "c1", 0, 0⟩]
      "t1" "a" 9 =
      (.ok (applyTaskUpdates
        ⟨"t1", "ttl", "d", "c", 15, none, none, "open", "a", none, "c1", 0, 0⟩
        cancelledUpdate 9),
        updateTaskRows
          [⟨"t1", "ttl", "d", "c", 15, none, none, "open", "a", none, "c1", 0, 0⟩]
          "t1" cancelledUpdate 9) :=
  ((C6_cancel
    [⟨"t1", "ttl", "d", "c", 15, none, none, "open", "a", none, "c1", 0, 0⟩]
    "t1" "a" 9
    ⟨"t1", "ttl", "d", "c", 15, none, none, "open", "a", none, "c1", 0, 0⟩
    rfl).2.2 rfl (Or.inl rfl)).1

/-- C7, amended: any authenticated caller — owner or not — may create the
transaction for an existing task; the insert fails (500) when the task has no
helper, and otherwise the created row copies payerId from the author, payeeId
from the helper and amount from the reward, with status "pending" and all
four handshake flags false. -/
theorem C7_amended (tasksTable : List Task) (txs : List Transaction)
    (pathId userId freshId : String) (now : Nat) (t : Task)
    (h : getTaskRow tasksTable pathId = some t) :
    (∀ helper, t.helperId = some helper →
      createTransactionRoute tasksTable txs pathId userId freshId now =
        (.ok ⟨freshId, pathId, t.authorId, helper, t.reward, "pending",
            false, false, false, false, now, none⟩,
          txs ++ [⟨freshId, pathId, t.authorId, helper, t.reward, "pending",
            false, false, false, false, now, none⟩])) ∧
    (t.helperId = none →
      createTransactionRoute tasksTable txs pathId userId freshId now =
        (.error 500, txs)) := by
  constructor
  · intro helper hh
    simp [createTransactionRoute, h, hh]
  · intro hh
    simp [createTransactionRoute, h, hh]

/-- C7, amended witness: a non-owner caller "x" creating the transaction for
a helpered task gets the copied row. -/
theorem C7_amended_witness :
    createTransactionRoute
      [⟨"t1", "ttl", "d", "c", 15, none, none, "accepted", "a", some "h", "c1", 0, 0⟩]
      [] "t1" "x" "tx2" 6 =
      (.ok ⟨"tx2", "t1", "a", "h", 15, "pending", false, false, false, false, 6, none⟩,
        [⟨"tx2", "t1", "a", "h", 15, "pending", false, false, false, false, 6, none⟩]) :=
  (C7_amended
    [⟨"t1", "ttl", "d", "c", 15, none, none, "accepted", "a", some "h", "c1", 0, 0⟩]
    [] "t1" "x" "tx2" 6
    ⟨"t1", "ttl", "d", "c", 15, none, none, "accepted", "a", some "h", "c1", 0, 0⟩
    rfl).1 "h" rfl

/-- C5, amended: the self-accept guard rejects (400, task unchanged) exactly
the truthy case: whenever the body's `helperId` is a non-empty string equal
to the task's author id; an empty-string `helperId` slips past the guard
because the handler tests JS truthiness first. -/
theorem C5_amended (tasksTable : List Task) (pathId : String)
    (body : TaskUpdates) (userId : String) (now : Nat) (t : Task)
    (hfind : getTaskRow tasksTable pathId = some t) (hid : String)
    (hbody : body.helperId = some hid) (hne : hid ≠ "")
    (hauthor : hid = t.authorId) :
    patchTaskRoute tasksTable pathId body userId now =
      (.error 400, tasksTable) := by
  simp [patchTaskRoute, hfind, jsTruthy, hbody, hne, hauthor]
  intro hcontra
  exact absurd hcontra (hauthor ▸ hne)

/-- C5, amended witness: setting `helperId` to the (non-empty) author id is
rejected with 400. -/
theorem C5_amended_witness :
    patchTaskRoute
      [⟨"t1", "ttl", "d", "c", 15, none, none, "open", "a", none, "c1", 0, 0⟩]
      "t1" { helperId := some "a" } "a" 3 =
      (.error 400,
        [⟨"t1", "ttl", "d", "c", 15, none, none, "open", "a", none, "c1", 0, 0⟩]) :=
  C5_amended
    [⟨"t1", "ttl", "d", "c", 15, none, none, "open", "a", none, "c1", 0, 0⟩]
    "t1" { helperId := some "a" } "a" 3
    ⟨"t1", "ttl", "d", "c", 15, none, none, "open", "a", none, "c1", 0, 0⟩
    rfl "a" rfl (by decide) rfl

/-- C4, amended: the PATCH route performs no Conflict check at all: whenever
the body sets `helperId` to the caller and the caller is not the author, the
request succeeds regardless of the task's current status or helper, applying
the body verbatim — in particular overwriting any existing `helperId`. -/
theorem C4_amended (tasksTable : List Task) (pathId : String)
    (body : TaskUpdates) (actor : String) (now : Nat) (t : Task)
    (hfind : getTaskRow tasksTable pathId = some t)
    (hbody : body.helperId = some actor) (hne : actor ≠ t.authorId) :
    (patchTaskRoute tasksTable pathId body actor now).1 =
      Except.ok (applyTaskUpdates t body now) ∧
    (applyTaskUpdates t body now).helperId = some actor := by
  constructor
  · simp [patchTaskRoute, hfind, hbody, hne]
  · simp [applyTaskUpdates, hbody]

/-- C4, amended witness: helper "h2" re-accepting the already-accepted task
succeeds and overwrites the stored helper "h1". -/
theorem C4_amended_witness :
    (patchTaskRoute
      [⟨"t1", "ttl", "d", "c", 15, none, none, "accepted", "a", some "h1", "c1", 0, 0⟩]
      "t1" { status := some "accepted", helperId := some "h2" } "h2" 7).1 =
      Except.ok (applyTaskUpdates
        ⟨"t1", "ttl", "d", "c", 15, none, none, "accepted", "a", some "h1", "c1", 0, 0⟩
        { status := some "accepted", helperId := some "h2" } 7) ∧
    (applyTaskUpdates
        ⟨"t1", "ttl", "d", "c", 15, none, none, "accepted", "a", some "h1", "c1", 0, 0⟩
        { status := some "accepted", helperId := some "h2" } 7).helperId = some "h2" :=
  C4_amended
    [⟨"t1", "ttl", "d", "c", 15, none, none, "accepted", "a", some "h1", "c1", 0, 0⟩]
    "t1" { status := some "accepted", helperId := some "h2" } "h2" 7
    ⟨"t1", "ttl", "d", "c", 15, none, none, "accepted", "a", some "h1", "c1", 0, 0⟩
    rfl rfl (by decide)

/-- C3, amended: only the cancel route checks the current status — it
succeeds solely for the author on an open or accepted task and yields
"cancelled" — while the PATCH route applies any status provided by the body
with no transition check at all, so the author can move a task from any
status (including completed or cancelled) to any other. -/
theorem C3_amended :
    (∀ (tasksTable : List Task) (pathId userId : String) (now : Nat) (t' : Task),
      (deleteTaskRoute tasksTable pathId userId now).1 = Except.ok t' →
      ∃ t, getTaskRow tasksTable pathId = some t ∧ t.authorId = userId ∧
        (t.status = "open" ∨ t.status = "accepted") ∧ t'.status = "cancelled") ∧
    (∀ (tasksTable : List Task) (pathId : String) (body : TaskUpdates)
        (userId : String) (now : Nat) (t : Task) (s : String),
      getTaskRow tasksTable pathId = some t → t.authorId = userId →
      body.helperId = none → body.status = some s →
      (patchTaskRoute tasksTable pathId body userId now).1 =
        Except.ok (applyTaskUpdates t body now) ∧
      (applyTaskUpdates t body now).status = s) := by
  constructor
  · intro tasksTable pathId userId now t' hok
    cases hfind : getTaskRow tasksTable pathId with
    | none => simp [deleteTaskRoute, hfind] at hok
    | some t =>
      by_cases h1 : t.authorId != userId
      · simp [deleteTaskRoute, hfind, h1] at hok
      · by_cases h2 : t.status != "open" && t.status != "accepted"
        · simp [deleteTaskRoute, hfind, h1, h2] at hok
        · have hok' : applyTaskUpdates t cancelledUpdate now = t' := by
            simp [deleteTaskRoute, hfind, h1, h2] at hok
            exact hok
          refine ⟨t, rfl, by simpa using h1, ?_, ?_⟩
          · by_cases ha : t.status = "open"
            · exact Or.inl ha
            · right
              by_contra hb
              exact h2 (by simp [ha, hb])
          · rw [← hok']
            simp [applyTaskUpdates, cancelledUpdate]
  · intro tasksTable pathId body userId now t s hfind hauthor hhelper hstatus
    constructor
    · simp [patchTaskRoute, hfind, hhelper, jsTruthy, hauthor]
    · simp [applyTaskUpdates, hstatus]

/-- C3, amended witness: the author moving a completed task back to "open"
through PATCH succeeds (the no-transition-check half), at a concrete task. -/
theorem C3_amended_witness :
    (patchTaskRoute
      [⟨"t1", "ttl", "d", "c", 15, none, none, "completed", "a", some "h", "c1", 0, 0⟩]
      "t1" { status := some "open" } "a" 5).1 =
      Except.ok (applyTaskUpdates
        ⟨"t1", "ttl", "d", "c", 15, none, none, "completed", "a", some "h", "c1", 0, 0⟩
        { status := some "open" } 5) ∧
    (applyTaskUpdates
      ⟨"t1", "ttl", "d", "c", 15, none, none, "completed", "a", some "h", "c1", 0, 0⟩
      { status := some "open" } 5).status = "open" :=
  C3_amended.2
    [⟨"t1", "ttl", "d", "c", 15, none, none, "completed", "a", some "h", "c1", 0, 0⟩]
    "t1" { status := some "open" } "a" 5
    ⟨"t1", "ttl", "d", "c", 15, none, none, "completed", "a", some "h", "c1", 0, 0⟩
    "open" rfl rfl rfl rfl

/-- C2: the start-request route, on the transaction found for the body's
taskId, sets the caller's start flag, derives "in_progress" exactly when the
stored row already shows the other party's flag, emits one
`transaction_start_request` event naming the other party whose
`bothRequested` is true exactly when the new status is "in_progress", and
rejects any caller who is neither payer nor payee with 403 leaving the table
untouched. -/
theorem C2_request_start (txs : List Transaction)
    (pathId bodyTaskId userId : String) (t : Transaction)
    (h : getTaskTransaction txs bodyTaskId = some t) :
    (t.payerId = userId →
      ∃ t', (startRequestRoute txs pathId bodyTaskId userId).resp = Except.ok t' ∧
        t'.payerStartRequested = true ∧
        t'.payeeStartRequested = t.payeeStartRequested ∧
        t'.status = (if t.payeeStartRequested then "in_progress" else "start_requested") ∧
        (startRequestRoute txs pathId bodyTaskId userId).events =
          [⟨bodyTaskId, userId, t.payeeId, t'.status == "in_progress"⟩]) ∧
    (t.payerId ≠ userId → t.payeeId = userId →
      ∃ t', (startRequestRoute txs pathId bodyTaskId userId).resp = Except.ok t' ∧
        t'.payeeStartRequested = true ∧
        t'.payerStartRequested = t.payerStartRequested ∧
        t'.status = (if t.payerStartRequested then "in_progress" else "start_requested") ∧
        (startRequestRoute txs pathId bodyTaskId userId).events =
          [⟨bodyTaskId, userId, t.payerId, t'.status == "in_progress"⟩]) ∧
    (t.payerId ≠ userId → t.payeeId ≠ userId →
      startRequestRoute txs pathId bodyTaskId userId = ⟨.error 403, txs, []⟩) := by
  refine ⟨fun hp => ?_, fun hp he => ?_, fun hp he => ?_⟩
  · cases hq : t.payeeStartRequested <;>
      simp [startRequestRoute, h, startRequestUpdates, hp, hq, optTrue,
        applyTxUpdates]
  · cases hq : t.payerStartRequested <;>
      simp [startRequestRoute, h, startRequestUpdates, hp, he, hq, optTrue,
        applyTxUpdates]
  · simp [startRequestRoute, h, startRequestUpdates, hp, he]

/-- C2, witness: the payee requesting start on a fresh transaction gets
"start_requested" and an event with `bothRequested = false` aimed at the
payer. -/
theorem C2_request_start_witness :
    ∃ t', (startRequestRoute [initTransaction "tx1" "t1" "a" "h" 15 0]
        "tx1" "t1" "h").resp = Except.ok t' ∧
      t'.payeeStartRequested = true ∧
      t'.payerStartRequested = (initTransaction "tx1" "t1" "a" "h" 15 0).payerStartRequested ∧
      t'.status = (if (initTransaction "tx1" "t1" "a" "h" 15 0).payerStartRequested
        then "in_progress" else "start_requested") ∧
      (startRequestRoute [initTransaction "tx1" "t1" "a" "h" 15 0]
        "tx1" "t1" "h").events = [⟨"t1", "h", "a", t'.status == "in_progress"⟩] :=
  (C2_request_start [initTransaction "tx1" "t1" "a" "h" 15 0] "tx1" "t1" "h"
    (initTransaction "tx1" "t1" "a" "h" 15 0) rfl).2.1 (by decide) rfl

/-- C10: both transaction mutation routes ignore the `:id` path segment —
their result is identical for any two path ids — and the row they read and
update is the one matching the body's `taskId`: a successful response always
carries that `taskId`, and a missing transaction for the body's `taskId`
yields 404 regardless of the path. -/
theorem C10_lookup_by_body_taskId (txs : List Transaction)
    (pathIdA pathIdB bodyTaskId userId : String) (now : Nat) :
    startRequestRoute txs pathIdA bodyTaskId userId =
      startRequestRoute txs pathIdB bodyTaskId userId ∧
    confirmRoute txs pathIdA bodyTaskId userId now =
      confirmRoute txs pathIdB bodyTaskId userId now ∧
    (∀ t', (startRequestRoute txs pathIdA bodyTaskId userId).resp = Except.ok t' →
      t'.taskId = bodyTaskId) ∧
    (∀ t', (confirmRoute txs pathIdA bodyTaskId userId now).resp = Except.ok t' →
      t'.taskId = bodyTaskId) ∧
    (getTaskTransaction txs bodyTaskId = none →
      (startRequestRoute txs pathIdA bodyTaskId userId).resp = Except.error 404 ∧
      (confirmRoute txs pathIdA bodyTaskId userId now).resp = Except.error 404) := by
  refine ⟨rfl, rfl, ?_, ?_, ?_⟩
  · intro t' hok
    cases hfind : getTaskTransaction txs bodyTaskId with
    | none => simp [startRequestRoute, hfind] at hok
    | some t =>
      cases hup : startRequestUpdates t userId with
      | none => simp [startRequestRoute, hfind, hup] at hok
      | some p =>
        have hok' : applyTxUpdates t p.1 = t' := by
          simp [startRequestRoute, hfind, hup] at hok
          exact hok
        have hfind2 : txs.find? (fun x => x.taskId == bodyTaskId) = some t := hfind
        have hbeq := List.find?_some hfind2
        simp only [beq_iff_eq] at hbeq
        rw [← hok']
        simpa [applyTxUpdates] using hbeq
  · intro t' hok
    cases hfind : getTaskTransaction txs bodyTaskId with
    | none => simp [confirmRoute, hfind] at hok
    | some t =>
      cases hup : confirmUpdates t userId now with
      | none => simp [confirmRoute, hfind, hup] at hok
      | some u =>
        have hok' : applyTxUpdates t u = t' := by
          simp [confirmRoute, hfind, hup] at hok
          exact hok
        have hfind2 : txs.find? (fun x => x.taskId == bodyTaskId) = some t := hfind
        have hbeq := List.find?_some hfind2
        simp only [beq_iff_eq] at hbeq
        rw [← hok']
        simpa [applyTxUpdates] using hbeq
  · intro hnone
    exact ⟨by simp [startRequestRoute, hnone], by simp [confirmRoute, hnone]⟩

/-- C10, witness: with path segment "zzz" and body taskId "t1", the row that
is read and returned belongs to task "t1"; with no transaction for the
body's taskId the response is 404. -/
theorem C10_witness :
    (⟨"tx1", "t1", "a", "h", 15, "start_requested", true, false, false, false,
      0, none⟩ : Transaction).taskId = "t1" ∧
    (⟨"tx1", "t1", "a", "h", 15, "completed", true, true, true, true,
      0, some 5⟩ : Transaction).taskId = "t1" ∧
    (startRequestRoute [] "zzz" "t1" "a").resp = Except.error 404 :=
  ⟨(C10_lookup_by_body_taskId [initTransaction "tx1" "t1" "a" "h" 15 0]
      "zzz" "w" "t1" "a" 0).2.2.1 _ rfl,
   (C10_lookup_by_body_taskId
      [⟨"tx1", "t1", "a", "h", 15, "in_progress", true, true, false, true, 0, none⟩]
      "zzz" "w" "t1" "a" 5).2.2.2.1 _ rfl,
   ((C10_lookup_by_body_taskId [] "zzz" "w" "t1" "a" 0).2.2.2.2 rfl).1⟩

/-- One route operation preserves the forward handshake derivations. -/
theorem txInv_applyTxOp (t : Transaction) (op : TxOp) (ht : txInv t) :
    txInv (applyTxOp t op) := by
  cases op with
  | start u =>
    simp only [applyTxOp, requestStartTx, startRequestUpdates]
    by_cases hp : (t.payerId == u) = true
    · cases hq : t.payeeStartRequested <;>
        simp [hp, hq, optTrue, applyTxUpdates, txInv]
    · by_cases he : (t.payeeId == u) = true
      · cases hq : t.payerStartRequested <;>
          simp [hp, he, hq, optTrue, applyTxUpdates, txInv]
      · simpa [hp, he] using ht
  | confirmAct u now =>
    simp only [applyTxOp, confirmTx, confirmUpdates]
    by_cases hp : (t.payerId == u) = true
    · cases hq : t.payeeConfirmed
      · simp only [hp, if_true, hq, optTrue, Option.getD_some, Option.getD_none,
          Bool.and_false, Bool.false_and, Bool.or_self, if_false, Option.map_some]
        refine ⟨?_, ?_⟩
        · intro hs
          simp only [applyTxUpdates, Option.getD_none] at hs ⊢
          exact ht.1 hs
        · intro hs
          simp only [applyTxUpdates, Option.getD_none] at hs
          exact absurd ((ht.2 hs).2) (by simp [hq])
      · simp [hp, hq, optTrue, applyTxUpdates, txInv]
    · by_cases he : (t.payeeId == u) = true
      · cases hq : t.payerConfirmed
        · simp only [hp, if_false, he, if_true, hq, optTrue, Option.getD_some,
            Option.getD_none, Bool.and_false, Bool.false_and, Bool.or_self,
            Option.map_some]
          refine ⟨?_, ?_⟩
          · intro hs
            simp only [applyTxUpdates, Option.getD_none] at hs ⊢
            exact ht.1 hs
          · intro hs
            simp only [applyTxUpdates, Option.getD_none] at hs
            exact absurd ((ht.2 hs).1) (by simp [hq])
        · simp [hp, he, hq, optTrue, applyTxUpdates, txInv]
      · simpa [hp, he] using ht

/-- Every sequence of route operations preserves the forward derivations. -/
theorem txInv_runTxOps (t : Transaction) (ops : List TxOp) (ht : txInv t) :
    txInv (runTxOps t ops) := by
  induction ops generalizing t with
  | nil => exact ht
  | cons op rest ih => exact ih (applyTxOp t op) (txInv_applyTxOp t op ht)

/-- A freshly created transaction satisfies the forward derivations. -/
theorem txInv_init (id taskId payerId payeeId : String) (amount : Rat)
    (now0 : Nat) : txInv (initTransaction id taskId payerId payeeId amount now0) := by
  constructor <;> intro hs <;> simp [initTransaction] at hs

/-- C1, amended: on every state reachable from a fresh transaction by the
exposed operations, "in_progress" implies both start flags and "completed"
implies both confirm flags (the converse directions fail, see the
counterexample); and locally for Confirm: the call that makes both confirm
flags true sets status "completed" and stamps `completedAt`, while a call
that leaves only one confirm flag true changes neither status nor
`completedAt`. -/
theorem C1_amended (id taskId payerId payeeId : String) (amount : Rat)
    (now0 : Nat) (ops : List TxOp) (t : Transaction) (u : String) (now : Nat) :
    (((runTxOps (initTransaction id taskId payerId payeeId amount now0) ops).status
        = "in_progress" →
      (runTxOps (initTransaction id taskId payerId payeeId amount now0) ops).payerStartRequested
          = true ∧
        (runTxOps (initTransaction id taskId payerId payeeId amount now0) ops).payeeStartRequested
          = true) ∧
     ((runTxOps (initTransaction id taskId payerId payeeId amount now0) ops).status
        = "completed" →
      (runTxOps (initTransaction id taskId payerId payeeId amount now0) ops).payerConfirmed
          = true ∧
        (runTxOps (initTransaction id taskId payerId payeeId amount now0) ops).payeeConfirmed
          = true)) ∧
    (t.payerId = u → t.payeeConfirmed = true →
      (confirmTx t u now).status = "completed" ∧
      (confirmTx t u now).completedAt = some now ∧
      (confirmTx t u now).payerConfirmed = true ∧
      (confirmTx t u now).payeeConfirmed = true) ∧
    (t.payerId = u → t.payeeConfirmed = false →
      (confirmTx t u now).status = t.status ∧
      (confirmTx t u now).completedAt = t.completedAt ∧
      (confirmTx t u now).payerConfirmed = true) ∧
    (t.payerId ≠ u → t.payeeId = u → t.payerConfirmed = true →
      (confirmTx t u now).status = "completed" ∧
      (confirmTx t u now).completedAt = some now ∧
      (confirmTx t u now).payerConfirmed = true ∧
      (confirmTx t u now).payeeConfirmed = true) ∧
    (t.payerId ≠ u → t.payeeId = u → t.payerConfirmed = false →
      (confirmTx t u now).status = t.status ∧
      (confirmTx t u now).completedAt = t.completedAt ∧
      (confirmTx t u now).payeeConfirmed = true) := by
  refine ⟨txInv_runTxOps _ ops (txInv_init id taskId payerId payeeId amount now0),
    fun hp hq => ?_, fun hp hq => ?_, fun hp he hq => ?_, fun hp he hq => ?_⟩
  · simp [confirmTx, confirmUpdates, hp, hq, optTrue, applyTxUpdates]
  · simp [confirmTx, confirmUpdates, hp, hq, optTrue, applyTxUpdates]
  · simp [confirmTx, confirmUpdates, hp, he, hq, optTrue, applyTxUpdates]
  · simp [confirmTx, confirmUpdates, hp, he, hq, optTrue, applyTxUpdates]

/-- C1, amended witness: after both start requests the status is
"in_progress" and the invariant yields both start flags; a confirm by the
payer when the payee has already confirmed completes and stamps the row. -/
theorem C1_amended_witness :
    ((runTxOps (initTransaction "tx1" "t1" "a" "h" 15 0) [.start "a", .start "h"]).payerStartRequested
        = true ∧
      (runTxOps (initTransaction "tx1" "t1" "a" "h" 15 0) [.start "a", .start "h"]).payeeStartRequested
        = true) ∧
    (confirmTx ⟨"tx1", "t1", "a", "h", 15, "in_progress", true, true, false, true, 0, none⟩
        "a" 9).status = "completed" :=
  ⟨(C1_amended "tx1" "t1" "a" "h" 15 0 [.start "a", .start "h"]
      (initTransaction "tx1" "t1" "a" "h" 15 0) "a" 9).1.1 rfl,
   ((C1_amended "tx1" "t1" "a" "h" 15 0 []
      ⟨"tx1", "t1", "a", "h", 15, "in_progress", true, true, false, true, 0, none⟩
      "a" 9).2.1 rfl rfl).1⟩

/-- Setting the rating of every row matching `target` rewrites the stored
rating looked up at `target` (when the row exists). -/
theorem storedRating_map_set (usersTable : List UserRow) (target : String)
    (v : Rat) :
    storedRating
      (usersTable.map (fun x => if x.id == target then { x with rating := v } else x))
      target = (storedRating usersTable target).map (fun _ => v) := by
  induction usersTable with
  | nil => rfl
  | cons u rest ih =>
    by_cases h : (u.id == target) = true
    · have hhead : (fun (x : UserRow) =>
          if x.id == target then { x with rating := v } else x) u
          = { u with rating := v } := by simp [h]
      simp only [List.map_cons, hhead]
      unfold storedRating
      rw [List.find?_cons_of_pos (p := fun x : UserRow => x.id == target) _ (by simpa using h),
        List.find?_cons_of_pos (p := fun x : UserRow => x.id == target) _ h]
      rfl
    · have hhead : (fun (x : UserRow) =>
          if x.id == target then { x with rating := v } else x) u = u := by
        simp [h]
      simp only [List.map_cons, hhead]
      unfold storedRating at ih ⊢
      rw [List.find?_cons_of_neg (p := fun x : UserRow => x.id == target) _ (by simpa using h),
        List.find?_cons_of_neg (p := fun x : UserRow => x.id == target) _ (by simpa using h)]
      exact ih

/-- Setting the rating of rows matching a different id leaves the stored
rating looked up at `uid` unchanged. -/
theorem storedRating_map_set_ne (usersTable : List UserRow)
    (target uid : String) (v : Rat) (hne : uid ≠ target) :
    storedRating
      (usersTable.map (fun x => if x.id == target then { x with rating := v } else x))
      uid = storedRating usersTable uid := by
  induction usersTable with
  | nil => rfl
  | cons u rest ih =>
    by_cases h : (u.id == target) = true
    · have hid : u.id = target := by simpa using h
      have hhead : (fun (x : UserRow) =>
          if x.id == target then { x with rating := v } else x) u
          = { u with rating := v } := by simp [h]
      have hu : (u.id == uid) = false := by
        simp [hid]
        exact fun hh => hne hh.symm
      simp only [List.map_cons, hhead]
      unfold storedRating at ih ⊢
      rw [List.find?_cons_of_neg (p := fun x : UserRow => x.id == uid) _ (by simp [hu]),
        List.find?_cons_of_neg (p := fun x : UserRow => x.id == uid) _ (by simp [hu])]
      exact ih
    · have hhead : (fun (x : UserRow) =>
          if x.id == target then { x with rating := v } else x) u = u := by
        simp [h]
      simp only [List.map_cons, hhead]
      by_cases h2 : (u.id == uid) = true
      · unfold storedRating
        rw [List.find?_cons_of_pos (p := fun x : UserRow => x.id == uid) _ h2,
          List.find?_cons_of_pos (p := fun x : UserRow => x.id == uid) _ h2]
      · unfold storedRating at ih ⊢
        rw [List.find?_cons_of_neg (p := fun x : UserRow => x.id == uid) _ (by simp [h2]),
          List.find?_cons_of_neg (p := fun x : UserRow => x.id == uid) _ (by simp [h2])]
        exact ih

/-- After one `createRating` the rated user's stored value is the rounded
mean over all their rating rows now in the table. -/
theorem createRating_stored_self (R : List Rating) (U : List UserRow)
    (r : Rating) :
    storedRating (createRating R U r).2 r.ratedId =
      (storedRating U r.ratedId).map
        (fun _ => toFixed2
          (jsAvg ((R ++ [r]).filter (fun x => x.ratedId == r.ratedId)))) :=
  storedRating_map_set U r.ratedId _

/-- One `createRating` for a different rated user leaves `uid`'s stored
rating unchanged. -/
theorem createRating_stored_other (R : List Rating) (U : List UserRow)
    (r : Rating) (uid : String) (hne : uid ≠ r.ratedId) :
    storedRating (createRating R U r).2 uid = storedRating U uid :=
  storedRating_map_set_ne U r.ratedId uid _ hne

/-- Unfolding one submission step of `runRatings`. -/
theorem runRatings_step (R : List Rating) (U : List UserRow) (r : Rating)
    (rest : List Rating) :
    runRatings R U (r :: rest) = runRatings (R ++ [r]) (createRating R U r).2 rest :=
  rfl

/-- Submissions that never rate `uid` leave `uid`'s stored rating unchanged. -/
theorem runRatings_stored_none (uid : String) :
    ∀ (rs R : List Rating) (U : List UserRow),
      (∀ x ∈ rs, x.ratedId ≠ uid) →
      storedRating (runRatings R U rs).2 uid = storedRating U uid := by
  intro rs
  induction rs with
  | nil => intro R U _; rfl
  | cons r rest ih =>
    intro R U h
    rw [runRatings_step,
      ih (R ++ [r]) _ (fun x hx => h x (List.mem_cons_of_mem r hx)),
      createRating_stored_other R U r uid
        (fun hh => h r (List.mem_cons_self r rest) hh.symm)]

/-- After a submission sequence containing at least one rating of `uid`, the
stored value is the rounded mean over all of `uid`'s rating rows. -/
theorem runRatings_stored (uid : String) :
    ∀ (rs R : List Rating) (U : List UserRow),
      rs.filter (fun x => x.ratedId == uid) ≠ [] →
      storedRating (runRatings R U rs).2 uid =
        (storedRating U uid).map
          (fun _ => toFixed2
            (jsAvg ((R ++ rs).filter (fun x => x.ratedId == uid)))) := by
  intro rs
  induction rs with
  | nil => intro R U hne; simp at hne
  | cons r rest ih =>
    intro R U hne
    rw [runRatings_step]
    by_cases hr : rest.filter (fun x => x.ratedId == uid) = []
    · have hhead : (r.ratedId == uid) = true := by
        by_contra hcontra
        apply hne
        simp only [List.filter_cons]
        rw [if_neg hcontra]
        exact hr
      have huid : r.ratedId = uid := by simpa using hhead
      subst huid
      have hrest : ∀ x ∈ rest, x.ratedId ≠ r.ratedId := by
        intro x hx
        have := List.filter_eq_nil_iff.mp hr x hx
        simpa using this
      rw [runRatings_stored_none r.ratedId rest (R ++ [r]) _ hrest,
        createRating_stored_self]
      have hfil : (R ++ r :: rest).filter (fun x => x.ratedId == r.ratedId)
          = (R ++ [r]).filter (fun x => x.ratedId == r.ratedId) := by
        rw [List.filter_append, List.filter_append]
        congr 1
        simp only [List.filter_cons]
        rw [if_pos (by simp), if_pos (by simp), hr]
        rfl
      rw [hfil]
    · rw [ih (R ++ [r]) _ hr]
      have hassoc : R ++ [r] ++ rest = R ++ r :: rest := by simp
      rw [hassoc]
      by_cases hcase : (r.ratedId == uid) = true
      · have huid : r.ratedId = uid := by simpa using hcase
        subst huid
        rw [createRating_stored_self]
        cases hstore : storedRating U r.ratedId <;> simp [hstore]
      · have hneq : uid ≠ r.ratedId := by
          intro hh
          simp [hh] at hcase
        rw [createRating_stored_other R U r uid hneq]

set_option maxRecDepth 40000 in
/-- C9, counterexample: 33 ratings of 4 and 7 ratings of 5 for user "u1"
(40 scores summing to 167, all in 1-5).  The exact mean is 4.175, which
rounded to 2 decimal places is 4.18 (under ties-up or ties-to-even alike),
but the program divides IEEE doubles: 167/40 as a binary64 is
4.17499999999999982..., so toFixed(2) stores 4.17 — the stored value is not
the rounded arithmetic mean. -/
theorem C9_counterexample :
    storedRating (runRatings [] [⟨"u1", 0, 0, 0, 0⟩]
        ((List.range 33).map (fun i => (⟨i, "t1", "r1", "u1", 4, none, 0⟩ : Rating)) ++
         (List.range 7).map (fun i => (⟨33 + i, "t2", "r2", "u1", 5, none, 0⟩ : Rating)))).2
        "u1" = some (417 / 100) ∧
    toFixed2 (ratAvg
      ((((List.range 33).map (fun i => (⟨i, "t1", "r1", "u1", 4, none, 0⟩ : Rating)) ++
         (List.range 7).map (fun i => (⟨33 + i, "t2", "r2", "u1", 5, none, 0⟩ : Rating)))).filter
           (fun x => x.ratedId == "u1"))) = 418 / 100 ∧
    (417 / 100 : Rat) ≠ 418 / 100 := by
  refine ⟨by with_unfolding_all decide, by with_unfolding_all decide, by norm_num⟩

/-- C9, amended: after ratings r1..rn (each an integer 1-5) of the same
rated user, in any order and across any tasks, the stored rating equals
toFixed(2) of the IEEE binary64 quotient of the reduced double sum of the
scores by n — the program rounds the double quotient, which differs from
the rounded exact arithmetic mean when the double falls on the other side
of a half-cent boundary (e.g. 40 scores summing to 167 store 4.17, not
4.18). -/
theorem C9_amended (R : List Rating) (U : List UserRow)
    (rs : List Rating) (uid : String)
    (hinit : ∀ x ∈ R, x.ratedId ≠ uid)
    (hsome : rs.filter (fun x => x.ratedId == uid) ≠ [])
    (hrange : ∀ x ∈ rs, x.ratedId = uid → 1 ≤ x.rating ∧ x.rating ≤ 5) :
    storedRating (runRatings R U rs).2 uid =
      (storedRating U uid).map
        (fun _ => toFixed2
          (jsAvg (rs.filter (fun x => x.ratedId == uid)))) := by
  rw [runRatings_stored uid rs R U hsome]
  have hRnil : R.filter (fun x => x.ratedId == uid) = [] := by
    rw [List.filter_eq_nil_iff]
    intro x hx
    simpa using hinit x hx
  rw [List.filter_append, hRnil, List.nil_append]

/-- C9, amended witness: ratings 4 then 5 of user "u1" by two raters on two
tasks leave "u1"'s stored rating at toFixed(2) of the double quotient of
their sum by 2 (here 4.50 exactly, since 4.5 is a dyadic rational). -/
theorem C9_amended_witness :
    storedRating (runRatings [] [⟨"u1", 0, 0, 0, 0⟩]
        [⟨0, "t1", "r1", "u1", 4, none, 0⟩, ⟨1, "t2", "r2", "u1", 5, none, 0⟩]).2
        "u1" =
      (storedRating [⟨"u1", 0, 0, 0, 0⟩] "u1").map
        (fun _ => toFixed2 (jsAvg
          ([⟨0, "t1", "r1", "u1", 4, none, 0⟩,
            ⟨1, "t2", "r2", "u1", 5, none, 0⟩].filter
              (fun x => x.ratedId == "u1")))) :=
  C9_amended [] [⟨"u1", 0, 0, 0, 0⟩]
    [⟨0, "t1", "r1", "u1", 4, none, 0⟩, ⟨1, "t2", "r2", "u1", 5, none, 0⟩]
    "u1" (by simp) (by decide) (by decide)

end Pumasi
